import Mathlib

/-!
Shallow embedding of the activity search/index engine of
`src/packages/indexer/src/elasticsearch/indexes/activities/index.ts`.

Pure fragments of the source (query construction, sort construction, continuation
computation, the keep-going computation of the propagation functions, the retry
loop of `_search`) are translated into executable Lean functions.  Stateful
interaction with the elasticsearch store is modelled by passing the store's
outcome (a successful response, or a thrown client error) as an explicit
argument of type `Except`.
-/

/-- JavaScript truthiness of an optional string: `undefined`, `null` and the
empty string are falsy, every other string is truthy. -/
def jsTruthyStr : Option String → Bool
  | none => false
  | some s => !s.isEmpty

/-- JavaScript truthiness of an optional number: `undefined` and `0` are falsy. -/
def jsTruthyNat : Option Nat → Bool
  | none => false
  | some n => n != 0

/-- Character-level worker for `splitString`: splits a character list at every
occurrence of the separator, keeping empty segments (JavaScript
`String.prototype.split` / lodash `_.split` semantics). -/
def splitCharsOn (sep : Char) : List Char → List Char → List (List Char)
  | acc, [] => [acc.reverse]
  | acc, c :: cs =>
    if c = sep then acc.reverse :: splitCharsOn sep [] cs
    else splitCharsOn sep (c :: acc) cs

/-- JavaScript `s.split(sep)` for a one-character separator, as used by
`_.split(..., "_")` in `search`.  Always returns at least one segment. -/
def splitString (sep : Char) (s : String) : List String :=
  (splitCharsOn sep [] s.data).map String.mk

/-- JavaScript `s.toLowerCase()` restricted to the character-wise case mapping,
as used on contract addresses and collection ids in the source. -/
def toLowerCase (s : String) : String :=
  String.mk (s.data.map Char.toLower)

/-- The part of an elasticsearch client error inspected by the source:
`(error as any).meta?.meta?.aborted` and
`(error as any).meta?.body?.error?.caused_by?.type`. -/
structure EsError where
  aborted : Bool
  causedByType : Option String
deriving Repr, DecidableEq

/-- Transient-error classification used by `_search` and by every propagation
function: an error is retryable when the operation was aborted or the error
metadata names a `node_not_connected_exception` cause. -/
def retryableError (error : EsError) : Bool :=
  error.aborted || error.causedByType == some "node_not_connected_exception"

/-- Outcome of one attempt of the underlying `elasticsearch.search` call. -/
inductive AttemptOutcome where
  | ok
  | err (error : EsError)
deriving Repr, DecidableEq

/-- Observable outcome of `_search`: a successful response, the terminal
`new Error("Could not perform search.")` raised after exhausting retries, or
the original store error rethrown. -/
inductive SearchOutcome where
  | success
  | maxRetriesError
  | failed (error : EsError)
deriving Repr, DecidableEq

/-- The retry loop of `_search`.  `attempt n` is the store's outcome for the
call made with `retries = n`.  Returns the observable outcome together with the
total number of attempts performed from the given `retries` value on.  Mirrors
the source: a retryable error is retried while `retries <= 3` (incrementing
`retries`), a retryable error with `retries > 3` raises the terminal error, and
a non-retryable error is rethrown unchanged. -/
def searchWithRetries (attempt : Nat → AttemptOutcome) (retries : Nat) :
    SearchOutcome × Nat :=
  match attempt retries with
  | .ok => (.success, 1)
  | .err error =>
    if retryableError error then
      if h : retries ≤ 3 then
        let rest := searchWithRetries attempt (retries + 1)
        (rest.1, rest.2 + 1)
      else (.maxRetriesError, 1)
    else (.failed error, 1)
termination_by 4 - retries
decreasing_by simp_wf; omega

/-- Modelled from the spec: `buildContinuation` lives in `@/common/utils`,
which is not among the given sources.  The spec (section 4.2) requires only
that the codec round-trips exactly (`decode (encode v) = v`) and is otherwise
opaque, so encoding is modelled as the identity on strings. -/
def buildContinuation (value : String) : String := value

/-- Modelled from the spec: `splitContinuation` lives in `@/common/utils`,
which is not among the given sources.  It decodes an encoded cursor back to
the string it was built from; `search` uses its first component (index `[0]`).
Modelled as the exact inverse of `buildContinuation`, returned as a singleton
list. -/
def splitContinuation (continuation : String) : List String := [continuation]

/-- The `searchAfter` computation of `search`: empty when no (truthy)
continuation is given; the raw continuation as a single component in
integer-cursor mode; otherwise the decoded continuation split on `_`. -/
def searchAfterOf (continuation : Option String) (continuationAsInt : Bool) :
    List String :=
  if jsTruthyStr continuation then
    let c := continuation.getD ""
    if continuationAsInt then [c]
    else splitString '_' ((splitContinuation c).headD "")
  else []

/-- A sort entry pushed onto `esSort` by `search`. -/
inductive SortKey where
  | timestampDesc
  | createdAtDesc
  | idDesc
deriving Repr, DecidableEq

/-- The `esSort` computation of `search`: primary sort on `timestamp`
(descending, epoch seconds) when `sortBy == "timestamp"`, otherwise on
`createdAt` (descending); the `id` (descending) tie-break is pushed only when
`searchAfter?.length != 1 && !params.continuationAsInt`. -/
def esSortOf (sortBy : Option String) (searchAfter : List String)
    (continuationAsInt : Bool) : List SortKey :=
  (if sortBy == some "timestamp" then [SortKey.timestampDesc]
   else [SortKey.createdAtDesc])
    ++ (if searchAfter.length != 1 && !continuationAsInt then [SortKey.idDesc]
        else [])

/-- The sort sent to the store by `search` for the given parameters:
`esSortOf` applied to the `searchAfter` decoded from the continuation. -/
def searchSort (sortBy : Option String) (continuation : Option String)
    (continuationAsInt : Bool) : List SortKey :=
  esSortOf sortBy (searchAfterOf continuation continuationAsInt)
    continuationAsInt

/-- A leaf clause of the boolean filter trees built by the source. -/
inductive Leaf where
  | term (field : String) (value : String)
  | rangeGte (field : String) (value : Nat)
  | rangeLt (field : String) (value : Nat)
  | existsField (field : String)
deriving Repr, DecidableEq

/-- The timestamp range clauses pushed by `search`: a `gte` clause when
`params.startTimestamp` is truthy and an `lt` clause when
`params.endTimestamp` is truthy (JavaScript truthiness, so the value `0`
pushes nothing). -/
def searchTimestampFilter (startTimestamp endTimestamp : Option Nat) :
    List Leaf :=
  (if jsTruthyNat startTimestamp then
    [Leaf.rangeGte "timestamp" (startTimestamp.getD 0)]
   else [])
    ++ (if jsTruthyNat endTimestamp then
          [Leaf.rangeLt "timestamp" (endTimestamp.getD 0)]
        else [])

/-- A hit returned by the store for `search`: the sort-tuple values attached
to the hit (`hit.sort`), as joined by `lastResult.sort!.join("_")`. -/
structure EsHit where
  sortVals : List String
deriving Repr, DecidableEq

/-- The continuation computation of `search`: `null` unless the hit count
equals `params.limit` exactly and a last hit exists; otherwise the last hit's
sort tuple joined with `_`, passed through raw in integer-cursor mode and
encoded with `buildContinuation` otherwise. -/
def searchContinuationOf (hits : List EsHit) (limit : Option Nat)
    (continuationAsInt : Bool) : Option String :=
  if some hits.length == limit then
    match hits.getLast? with
    | some lastResult =>
      let lastResultSortValue := String.intercalate "_" lastResult.sortVals
      if continuationAsInt then some lastResultSortValue
      else some (buildContinuation lastResultSortValue)
    | none => none
  else none

/-- An activity document as far as `save` manipulates it: the document key and
the `indexedAt` stamp. -/
structure ActivityDocument where
  id : String
  indexedAt : Option Nat
deriving Repr, DecidableEq

/-- The stamping step of `save`: when `overrideIndexedAt` is set, every
activity's `indexedAt` is overwritten with the current time before the bulk
body is built; otherwise the batch is left untouched. -/
def stampIndexedAt (now : Nat) (overrideIndexedAt : Bool)
    (activities : List ActivityDocument) : List ActivityDocument :=
  if overrideIndexedAt then
    activities.map (fun activity => { activity with indexedAt := some now })
  else activities

/-- One line of the bulk body built by `save`: an action line (`index` or
`create`, addressed to the logical index and the activity's id) or a document
line. -/
inductive BulkLine where
  | action (op : String) (index : String) (id : String)
  | doc (activity : ActivityDocument)
deriving Repr, DecidableEq

/-- The bulk body built by `save`: for each activity an action line (`index`
when `upsert`, `create` otherwise, keyed on `activity.id`) followed by the
document itself. -/
def saveBulkBody (indexName : String) (upsert : Bool)
    (activities : List ActivityDocument) : List BulkLine :=
  activities.flatMap (fun activity =>
    [BulkLine.action (if upsert then "index" else "create") indexName
       activity.id,
     BulkLine.doc activity])

/-- The `update` member of a bulk response item, carrying the per-item HTTP
status inspected by the propagation functions. -/
structure BulkItemUpdate where
  status : Option Nat
deriving Repr, DecidableEq

/-- One item of a bulk response; `update` is absent for non-update items or
when the response was filtered. -/
structure BulkItem where
  update : Option BulkItemUpdate
deriving Repr, DecidableEq

/-- The optional-chained access `item.update?.status` of the source. -/
def bulkItemStatus (item : BulkItem) : Option Nat :=
  item.update.bind (fun u => u.status)

/-- A bulk response as inspected by the source: the top-level `errors` flag
and the item list. -/
structure BulkResponse where
  errors : Bool
  items : List BulkItem
deriving Repr, DecidableEq

/-- The observable behaviour of `save` once the bulk body is submitted, as a
function of the store's outcome for the bulk call: the call's result (normal
return or rethrown error) paired with the list of logged error diagnostics.
Mirrors the source: a response with `errors` is logged only in upsert mode and
never raises; a thrown error is logged and rethrown. -/
def saveRun (upsert : Bool) (bulkOutcome : Except EsError BulkResponse) :
    Except EsError Unit × List String :=
  match bulkOutcome with
  | .ok response =>
    if response.errors then
      if upsert then (.ok (), ["save activities errors"])
      else (.ok (), [])
    else (.ok (), [])
  | .error error => (.error error, ["error saving activities"])

/-- A hit of a consistency scan as the propagation functions use it:
`hit._source.id` and the physical index `hit._index` the hit was found in. -/
structure HitMeta where
  id : String
  index : String
deriving Repr, DecidableEq

/-- The scan request parameters common shape: the `_source` filter and the
page size of the candidate fetch. -/
structure ScanRequest where
  sourceFields : List String
  size : Nat
deriving Repr, DecidableEq

/-- The scan request issued by `updateActivitiesMissingCollection`. -/
def updateActivitiesMissingCollection_scan : ScanRequest := ⟨["id"], 1000⟩

/-- The scan request issued by `updateActivitiesCollection`. -/
def updateActivitiesCollection_scan : ScanRequest := ⟨["id"], 1000⟩

/-- The scan request issued by `updateActivitiesTokenMetadata`. -/
def updateActivitiesTokenMetadata_scan : ScanRequest := ⟨["id"], 1000⟩

/-- The scan request issued by `updateActivitiesCollectionMetadata`. -/
def updateActivitiesCollectionMetadata_scan : ScanRequest := ⟨["id"], 1000⟩

/-- The action line of one scripted bulk update: the index it is addressed
to, the document id, and the `retry_on_conflict` count. -/
structure BulkUpdateAction where
  index : String
  id : String
  retryOnConflict : Nat
deriving Repr, DecidableEq

/-- The candidate ids extracted by `updateActivitiesMissingCollection` from
its scan result (`hit._source!.id` only; the physical index is dropped). -/
def updateActivitiesMissingCollection_pendingIds (hits : List HitMeta) :
    List String :=
  hits.map (fun hit => hit.id)

/-- The bulk update actions built by `updateActivitiesMissingCollection`:
every update is addressed to the module constant `INDEX_NAME` (the logical
alias), with `retry_on_conflict: 3`. -/
def updateActivitiesMissingCollection_bulkActions (indexName : String)
    (pendingUpdateActivities : List String) : List BulkUpdateAction :=
  pendingUpdateActivities.map (fun activityId => ⟨indexName, activityId, 3⟩)

/-- The bulk update actions built by `updateActivitiesCollection`: every
update is addressed to the physical index the scan found the document in,
with `retry_on_conflict: 3`. -/
def updateActivitiesCollection_bulkActions
    (pendingUpdateDocuments : List HitMeta) : List BulkUpdateAction :=
  pendingUpdateDocuments.map (fun document => ⟨document.index, document.id, 3⟩)

/-- The bulk update actions built by `updateActivitiesTokenMetadata`. -/
def updateActivitiesTokenMetadata_bulkActions
    (pendingUpdateDocuments : List HitMeta) : List BulkUpdateAction :=
  pendingUpdateDocuments.map (fun document => ⟨document.index, document.id, 3⟩)

/-- The bulk update actions built by `updateActivitiesCollectionMetadata`. -/
def updateActivitiesCollectionMetadata_bulkActions
    (pendingUpdateDocuments : List HitMeta) : List BulkUpdateAction :=
  pendingUpdateDocuments.map (fun document => ⟨document.index, document.id, 3⟩)

/-- The observable behaviour of `updateActivitiesMissingCollection` as a
function of the store's outcomes: `scanOutcome` is the candidate scan's
result, `bulkOutcome` the bulk update's result (consulted only when
candidates exist).  Mirrors the source's control flow: `keepGoing` starts
`false`; with no candidates no bulk call is made; a bulk response with
`errors` sets `keepGoing` to whether some item's `update?.status !== 400`;
a clean bulk response sets it to whether exactly 1000 candidates were found;
a thrown retryable error yields `keepGoing = true`, a non-retryable one is
rethrown. -/
def updateActivitiesMissingCollection_run
    (scanOutcome : Except EsError (List HitMeta))
    (bulkOutcome : Except EsError BulkResponse) : Except EsError Bool :=
  match scanOutcome with
  | .error error =>
    if retryableError error then .ok true else .error error
  | .ok hits =>
    if hits.isEmpty then .ok false
    else
      match bulkOutcome with
      | .error error =>
        if retryableError error then .ok true else .error error
      | .ok response =>
        if response.errors then
          .ok (response.items.any (fun item => bulkItemStatus item != some 400))
        else .ok (hits.length == 1000)

/-- The observable behaviour of `updateActivitiesCollectionMetadata` as a
function of the store's outcomes; the control flow is identical to
`updateActivitiesMissingCollection_run` (the source duplicates it). -/
def updateActivitiesCollectionMetadata_run
    (scanOutcome : Except EsError (List HitMeta))
    (bulkOutcome : Except EsError BulkResponse) : Except EsError Bool :=
  match scanOutcome with
  | .error error =>
    if retryableError error then .ok true else .error error
  | .ok hits =>
    if hits.isEmpty then .ok false
    else
      match bulkOutcome with
      | .error error =>
        if retryableError error then .ok true else .error error
      | .ok response =>
        if response.errors then
          .ok (response.items.any (fun item => bulkItemStatus item != some 400))
        else .ok (hits.length == 1000)

/-- The new token metadata passed to `updateActivitiesTokenMetadata`. -/
structure TokenData where
  name : Option String
  image : Option String
  media : Option String
deriving Repr, DecidableEq

/-- A `bool` sub-clause with `must` and `must_not` members, as used in the
staleness disjunctions and the identifying filters of the propagation
queries. -/
structure BoolClause where
  must : List Leaf
  mustNot : List Leaf
deriving Repr, DecidableEq

/-- One per-field staleness clause: when the new value is truthy, documents
whose field differs from it (`must_not term`); when it is null, documents
where the field still exists (`must exists`). -/
def stalenessShould (field : String) (newValue : Option String) : BoolClause :=
  if jsTruthyStr newValue then
    { must := [], mustNot := [Leaf.term field (newValue.getD "")] }
  else
    { must := [Leaf.existsField field], mustNot := [] }

/-- The filtered boolean query built by `updateActivitiesTokenMetadata` and
`updateActivitiesCollectionMetadata`: identifying `must` clauses, excluded
`must_not` clauses, and the staleness `should` disjunction. -/
structure FilteredBoolQuery where
  must : List Leaf
  mustNot : List Leaf
  should : List BoolClause
deriving Repr, DecidableEq

/-- The staleness query built by `updateActivitiesTokenMetadata`.  The
`contract` and `tokenId` parameters are unused by the source: the identifying
filter hardcodes the pair `0xb76fbbb30e31f2c3bdaa2466cfb1cfe39b220d06` /
`7514` instead of using them. -/
def updateActivitiesTokenMetadata_query (contract : String) (tokenId : String)
    (tokenData : TokenData) : FilteredBoolQuery :=
  { must := [Leaf.term "contract" "0xb76fbbb30e31f2c3bdaa2466cfb1cfe39b220d06",
             Leaf.term "token.id" "7514"],
    mustNot := [Leaf.term "type" "bid"],
    should := [stalenessShould "token.name" tokenData.name,
               stalenessShould "token.image" tokenData.image,
               stalenessShould "token.media" tokenData.media] }

/-- The staleness query built by `updateActivitiesCollection`: documents of
the given contract (lowercased) and token id whose `collection.id` is not the
new collection's id. -/
def updateActivitiesCollection_query (contract : String) (tokenId : String)
    (newCollectionId : String) : BoolClause :=
  { must := [Leaf.term "contract" (toLowerCase contract),
             Leaf.term "token.id" tokenId],
    mustNot := [Leaf.term "collection.id" newCollectionId] }

/-- A store behaviour whose every attempt throws an aborted-operation error
(a transient failure). -/
def alwaysAborted : Nat → AttemptOutcome := fun _ => .err ⟨true, none⟩

/-- A store behaviour whose every attempt throws a non-retryable error. -/
def alwaysFatal : Nat → AttemptOutcome := fun _ => .err ⟨false, none⟩

theorem searchWithRetries_fatal (attempt : Nat → AttemptOutcome)
    (retries : Nat) (error : EsError) (ha : attempt retries = .err error)
    (hr : retryableError error = false) :
    searchWithRetries attempt retries = (.failed error, 1) := by
  unfold searchWithRetries
  rw [ha]
  simp [hr]

theorem searchWithRetries_transient_step (attempt : Nat → AttemptOutcome)
    (retries : Nat) (error : EsError) (ha : attempt retries = .err error)
    (hr : retryableError error = true) (hle : retries ≤ 3) :
    searchWithRetries attempt retries =
      ((searchWithRetries attempt (retries + 1)).1,
       (searchWithRetries attempt (retries + 1)).2 + 1) := by
  conv_lhs => unfold searchWithRetries
  rw [ha]
  simp [hr, hle]

theorem searchWithRetries_exhausted (attempt : Nat → AttemptOutcome)
    (retries : Nat) (error : EsError) (ha : attempt retries = .err error)
    (hr : retryableError error = true) (hgt : ¬ retries ≤ 3) :
    searchWithRetries attempt retries = (.maxRetriesError, 1) := by
  unfold searchWithRetries
  rw [ha]
  simp [hr, hgt]

/-- Claim C2 counterexample: a store operation that always reports a transient
(aborted) failure is attempted 5 times in total, not 4 as claimed — the guard
`retries <= 3` admits one more recursive call than the claim counts. -/
theorem search_retry_attempts_refuted :
    searchWithRetries alwaysAborted 0 = (.maxRetriesError, 5)
  ∧ (searchWithRetries alwaysAborted 0).2 ≠ 4 := by
  have h : searchWithRetries alwaysAborted 0 = (.maxRetriesError, 5) := by
    rw [searchWithRetries_transient_step alwaysAborted 0 ⟨true, none⟩ rfl rfl
          (by omega),
        searchWithRetries_transient_step alwaysAborted 1 ⟨true, none⟩ rfl rfl
          (by omega),
        searchWithRetries_transient_step alwaysAborted 2 ⟨true, none⟩ rfl rfl
          (by omega),
        searchWithRetries_transient_step alwaysAborted 3 ⟨true, none⟩ rfl rfl
          (by omega),
        searchWithRetries_exhausted alwaysAborted 4 ⟨true, none⟩ rfl rfl
          (by omega)]
  exact ⟨h, by rw [h]; decide⟩

/-- Claim C2 (amended): a query whose every attempt reports a transient
failure is attempted exactly 5 times in total (the initial attempt plus 4
retries) and then the terminal "Could not perform search." error is raised,
which is distinct from any rethrown original error; a query reporting a
non-transient failure is attempted exactly once and the original error
propagates. -/
theorem search_retry_bound (attempt attemptFatal : Nat → AttemptOutcome)
    (fatal : EsError)
    (htrans : ∀ n, n ≤ 4 →
      ∃ error, attempt n = .err error ∧ retryableError error = true)
    (hfat : attemptFatal 0 = .err fatal)
    (hr : retryableError fatal = false) :
    searchWithRetries attempt 0 = (.maxRetriesError, 5)
  ∧ searchWithRetries attemptFatal 0 = (.failed fatal, 1)
  ∧ (∀ error, SearchOutcome.maxRetriesError ≠ SearchOutcome.failed error) := by
  refine ⟨?_, searchWithRetries_fatal attemptFatal 0 fatal hfat hr,
    fun error h => SearchOutcome.noConfusion h⟩
  obtain ⟨e0, ha0, hr0⟩ := htrans 0 (by omega)
  obtain ⟨e1, ha1, hr1⟩ := htrans 1 (by omega)
  obtain ⟨e2, ha2, hr2⟩ := htrans 2 (by omega)
  obtain ⟨e3, ha3, hr3⟩ := htrans 3 (by omega)
  obtain ⟨e4, ha4, hr4⟩ := htrans 4 (by omega)
  rw [searchWithRetries_transient_step attempt 0 e0 ha0 hr0 (by omega),
      searchWithRetries_transient_step attempt 1 e1 ha1 hr1 (by omega),
      searchWithRetries_transient_step attempt 2 e2 ha2 hr2 (by omega),
      searchWithRetries_transient_step attempt 3 e3 ha3 hr3 (by omega),
      searchWithRetries_exhausted attempt 4 e4 ha4 hr4 (by omega)]

/-- Claim C2 witness: the amended retry bound evaluated on the two concrete
behaviours. -/
theorem search_retry_bound_witness :
    searchWithRetries alwaysAborted 0 = (.maxRetriesError, 5)
  ∧ searchWithRetries alwaysFatal 0 = (.failed ⟨false, none⟩, 1) :=
  ⟨(search_retry_bound alwaysAborted alwaysFatal ⟨false, none⟩
      (fun _ _ => ⟨⟨true, none⟩, rfl, rfl⟩) rfl rfl).1,
   (search_retry_bound alwaysAborted alwaysFatal ⟨false, none⟩
      (fun _ _ => ⟨⟨true, none⟩, rfl, rfl⟩) rfl rfl).2.1⟩

/-- Claim C1 counterexample: a propagation call over exactly 1000 candidates
whose bulk response reports errors that are all status-400 conflicts returns
`keepGoing = false`, while the claimed disjunction (an error item with status
other than 400, OR exactly 1000 candidates) evaluates to true. -/
theorem keepGoing_full_page_all_conflicts :
    updateActivitiesCollectionMetadata_run
        (.ok (List.replicate 1000 ⟨"a", "idx"⟩))
        (.ok ⟨true, [⟨some ⟨some 400⟩⟩]⟩) = .ok false
  ∧ (List.replicate 1000 (⟨"a", "idx"⟩ : HitMeta)).length = 1000 := by
  constructor
  · rfl
  · rw [List.length_replicate]

/-- Claim C1 (amended): for a propagation call whose scan finds at least one
candidate, the returned `keepGoing` is true iff either the bulk response
reports errors and contains an item whose status is not 400, or the bulk
response reports no errors and exactly 1000 candidates were found; it is
false otherwise. -/
theorem keepGoing_semantics (hits : List HitMeta) (response : BulkResponse)
    (hne : hits ≠ []) :
    (updateActivitiesCollectionMetadata_run (.ok hits) (.ok response) = .ok true
      ↔ (response.errors = true
            ∧ ∃ item ∈ response.items, bulkItemStatus item ≠ some 400)
        ∨ (response.errors = false ∧ hits.length = 1000))
  ∧ (updateActivitiesMissingCollection_run (.ok hits) (.ok response) = .ok true
      ↔ (response.errors = true
            ∧ ∃ item ∈ response.items, bulkItemStatus item ≠ some 400)
        ∨ (response.errors = false ∧ hits.length = 1000)) := by
  cases hits with
  | nil => exact absurd rfl hne
  | cons a t =>
    by_cases he : response.errors
    · constructor <;>
        simp [updateActivitiesCollectionMetadata_run,
          updateActivitiesMissingCollection_run, he, List.any_eq_true,
          bne_iff_ne]
    · constructor <;>
        simp [updateActivitiesCollectionMetadata_run,
          updateActivitiesMissingCollection_run, he, List.any_eq_true,
          bne_iff_ne]

/-- Claim C1 witness: a clean bulk response over a full page of 1000
candidates yields `keepGoing = true`. -/
theorem keepGoing_semantics_witness :
    updateActivitiesCollectionMetadata_run
        (.ok (List.replicate 1000 (⟨"a", "idx2"⟩ : HitMeta)))
        (.ok ⟨false, []⟩) = .ok true :=
  ((keepGoing_semantics (List.replicate 1000 ⟨"a", "idx2"⟩) ⟨false, []⟩
      (by rw [Ne, List.replicate_eq_nil_iff]; omega)).1).mpr
    (Or.inr ⟨rfl, by rw [List.length_replicate]⟩)

/-- Claim C3 counterexample: a call without `continuationAsInt` whose decoded
continuation has a single component (no underscore) does not get the `id`
tie-break appended — the source also requires `searchAfter?.length != 1`. -/
theorem search_sort_single_component_cursor :
    searchSort none (some "7") false = [SortKey.createdAtDesc]
  ∧ SortKey.idDesc ∉ searchSort none (some "7") false := by decide

/-- Claim C3 (amended): the descending `id` tie-break is appended to the sort
iff `continuationAsInt` is not set and the decoded `searchAfter` does not
consist of exactly one component; in particular it is never appended when
`continuationAsInt` is set. -/
theorem search_sort_tiebreak (sortBy : Option String)
    (continuation : Option String) (continuationAsInt : Bool) :
    SortKey.idDesc ∈ searchSort sortBy continuation continuationAsInt
      ↔ continuationAsInt = false
        ∧ (searchAfterOf continuation continuationAsInt).length ≠ 1 := by
  cases continuationAsInt <;>
    by_cases hs : sortBy == some "timestamp" <;>
      by_cases hl : (searchAfterOf continuation false).length = 1 <;>
        simp [searchSort, esSortOf, hs, hl]

/-- Claim C4 counterexample: with `limit = 0` the store returns 0 hits, the
hit count equals the limit exactly, yet the returned continuation is null
(there is no last hit), contradicting the claim that a page of exactly
`limit` hits always yields a non-null continuation. -/
theorem search_continuation_zero_limit :
    searchContinuationOf [] (some 0) false = none
  ∧ ([] : List EsHit).length = 0 := by decide

/-- Claim C4 (amended): if the store returns fewer hits than the limit the
continuation is null; if it returns exactly `limit` hits and the page is
nonempty (`limit` is at least 1), the continuation is the last hit sort
tuple joined with an underscore, passed through raw in integer-cursor mode
and encoded otherwise. -/
theorem search_continuation_page_semantics (hits : List EsHit) (n : Nat)
    (continuationAsInt : Bool) :
    (hits.length < n →
      searchContinuationOf hits (some n) continuationAsInt = none)
  ∧ (hits.length = n → 0 < n →
      ∃ lastResult, hits.getLast? = some lastResult
        ∧ searchContinuationOf hits (some n) continuationAsInt
          = some (if continuationAsInt then
                    String.intercalate "_" lastResult.sortVals
                  else buildContinuation
                    (String.intercalate "_" lastResult.sortVals))) := by
  constructor
  · intro hlt
    simp [searchContinuationOf, Nat.ne_of_lt hlt]
  · intro hlen hpos
    have hne : hits ≠ [] := by
      intro hnil
      rw [hnil] at hlen
      simp at hlen
      omega
    have hsome : hits.getLast?.isSome := List.getLast?_isSome.mpr hne
    obtain ⟨lastResult, hlast⟩ := Option.isSome_iff_exists.mp hsome
    refine ⟨lastResult, hlast, ?_⟩
    cases continuationAsInt <;> simp [searchContinuationOf, hlen, hlast]

/-- Claim C4 witness: a short page yields a null continuation; an exactly
full nonempty page yields the encoded joined sort tuple. -/
theorem search_continuation_page_semantics_witness :
    searchContinuationOf [(⟨["5", "a9"]⟩ : EsHit)] (some 2) false = none
  ∧ searchContinuationOf [(⟨["5", "a9"]⟩ : EsHit)] (some 1) false
      = some (buildContinuation "5_a9") := by
  constructor
  · exact (search_continuation_page_semantics [⟨["5", "a9"]⟩] 2 false).1
      (by decide)
  · obtain ⟨lastResult, hlast, hval⟩ :=
      (search_continuation_page_semantics [⟨["5", "a9"]⟩] 1 false).2 rfl
        (by decide)
    have heq : EsHit.mk ["5", "a9"] = lastResult := by simpa using hlast
    rw [hval, ← heq]
    decide

/-- Claim C5: the staleness query of `updateActivitiesTokenMetadata` does NOT
filter on the given contract and token id — it hardcodes the pair
`0xb76fbbb30e31f2c3bdaa2466cfb1cfe39b220d06` / `7514` regardless of its
arguments, unlike `updateActivitiesCollection`, whose query filters on its
own (lowercased) contract and token id parameters. -/
theorem tokenMetadata_query_hardcoded_pair :
    (updateActivitiesTokenMetadata_query "0xabc" "1"
        ⟨some "n", some "i", some "m"⟩).must
      = [Leaf.term "contract" "0xb76fbbb30e31f2c3bdaa2466cfb1cfe39b220d06",
         Leaf.term "token.id" "7514"]
  ∧ (updateActivitiesTokenMetadata_query "0xabc" "1"
        ⟨some "n", some "i", some "m"⟩).must
      ≠ [Leaf.term "contract" "0xabc", Leaf.term "token.id" "1"]
  ∧ (updateActivitiesCollection_query "0xABC" "1" "c").must
      = [Leaf.term "contract" "0xabc", Leaf.term "token.id" "1"] := by decide

/-- Claim C6 counterexample: `updateActivitiesMissingCollection` addresses
its scripted updates to the logical alias (the module constant `INDEX_NAME`),
not to the physical index the scan found the document in. -/
theorem missingCollection_bulk_targets_alias :
    updateActivitiesMissingCollection_bulkActions "mainnet.activities"
        (updateActivitiesMissingCollection_pendingIds
          [⟨"a1", "mainnet.activities-1690000000000"⟩])
      = [⟨"mainnet.activities", "a1", 3⟩]
  ∧ ("mainnet.activities" : String) ≠ "mainnet.activities-1690000000000" := by
  decide

/-- Claim C6 (amended): every propagation case scans with `_source` filtered
to `["id"]` and size 1000; the scripted updates of `updateActivitiesCollection`,
`updateActivitiesTokenMetadata` and `updateActivitiesCollectionMetadata` are
addressed to the physical index of each hit, while those of
`updateActivitiesMissingCollection` are addressed to the logical alias. -/
theorem propagation_scan_and_bulk_targets (indexName : String)
    (hits : List HitMeta) (hit : HitMeta) (hmem : hit ∈ hits) :
    updateActivitiesMissingCollection_scan = ⟨["id"], 1000⟩
  ∧ updateActivitiesCollection_scan = ⟨["id"], 1000⟩
  ∧ updateActivitiesTokenMetadata_scan = ⟨["id"], 1000⟩
  ∧ updateActivitiesCollectionMetadata_scan = ⟨["id"], 1000⟩
  ∧ (⟨hit.index, hit.id, 3⟩ : BulkUpdateAction)
      ∈ updateActivitiesCollection_bulkActions hits
  ∧ (⟨hit.index, hit.id, 3⟩ : BulkUpdateAction)
      ∈ updateActivitiesTokenMetadata_bulkActions hits
  ∧ (⟨hit.index, hit.id, 3⟩ : BulkUpdateAction)
      ∈ updateActivitiesCollectionMetadata_bulkActions hits
  ∧ (⟨indexName, hit.id, 3⟩ : BulkUpdateAction)
      ∈ updateActivitiesMissingCollection_bulkActions indexName
          (updateActivitiesMissingCollection_pendingIds hits) := by
  refine ⟨rfl, rfl, rfl, rfl, ?_, ?_, ?_, ?_⟩ <;>
    simp [updateActivitiesCollection_bulkActions,
      updateActivitiesTokenMetadata_bulkActions,
      updateActivitiesCollectionMetadata_bulkActions,
      updateActivitiesMissingCollection_bulkActions,
      updateActivitiesMissingCollection_pendingIds] <;>
    exact ⟨hit, hmem, by simp⟩

/-- Claim C6 witness: the amended statement evaluated on one concrete hit. -/
theorem propagation_scan_and_bulk_targets_witness :
    updateActivitiesMissingCollection_scan = ⟨["id"], 1000⟩
  ∧ updateActivitiesCollection_scan = ⟨["id"], 1000⟩
  ∧ updateActivitiesTokenMetadata_scan = ⟨["id"], 1000⟩
  ∧ updateActivitiesCollectionMetadata_scan = ⟨["id"], 1000⟩
  ∧ (⟨"phys-1", "a1", 3⟩ : BulkUpdateAction)
      ∈ updateActivitiesCollection_bulkActions [⟨"a1", "phys-1"⟩]
  ∧ (⟨"phys-1", "a1", 3⟩ : BulkUpdateAction)
      ∈ updateActivitiesTokenMetadata_bulkActions [⟨"a1", "phys-1"⟩]
  ∧ (⟨"phys-1", "a1", 3⟩ : BulkUpdateAction)
      ∈ updateActivitiesCollectionMetadata_bulkActions [⟨"a1", "phys-1"⟩]
  ∧ (⟨"mainnet.activities", "a1", 3⟩ : BulkUpdateAction)
      ∈ updateActivitiesMissingCollection_bulkActions "mainnet.activities"
          (updateActivitiesMissingCollection_pendingIds [⟨"a1", "phys-1"⟩]) :=
  propagation_scan_and_bulk_targets "mainnet.activities" [⟨"a1", "phys-1"⟩]
    ⟨"a1", "phys-1"⟩ (by decide)

/-- Claim C7: a propagation call whose scan or bulk update throws an error
classified transient (aborted, or node_not_connected_exception cause)
returns `keepGoing = true` instead of propagating; a non-transient error
propagates to the caller unchanged. -/
theorem propagation_transient_error_keepGoing (error : EsError)
    (hits : List HitMeta) (bulkOutcome : Except EsError BulkResponse)
    (hne : hits ≠ []) :
    (updateActivitiesMissingCollection_run (.error error) bulkOutcome
        = if retryableError error then .ok true else .error error)
  ∧ (updateActivitiesMissingCollection_run (.ok hits) (.error error)
        = if retryableError error then .ok true else .error error)
  ∧ (updateActivitiesCollectionMetadata_run (.error error) bulkOutcome
        = if retryableError error then .ok true else .error error)
  ∧ (updateActivitiesCollectionMetadata_run (.ok hits) (.error error)
        = if retryableError error then .ok true else .error error)
  ∧ retryableError error
      = (error.aborted
          || error.causedByType == some "node_not_connected_exception") := by
  cases hits with
  | nil => exact absurd rfl hne
  | cons a t =>
    refine ⟨rfl, ?_, rfl, ?_, rfl⟩ <;>
      simp [updateActivitiesMissingCollection_run,
        updateActivitiesCollectionMetadata_run]

/-- Claim C7 witness: the statement evaluated for an aborted-operation error
at the bulk step with one candidate. -/
theorem propagation_transient_error_keepGoing_witness :
    (updateActivitiesMissingCollection_run (.error ⟨true, none⟩)
        (.ok ⟨false, []⟩)
      = if retryableError ⟨true, none⟩ then .ok true
        else .error ⟨true, none⟩)
  ∧ (updateActivitiesMissingCollection_run (.ok [⟨"a", "idx"⟩])
        (.error ⟨true, none⟩)
      = if retryableError ⟨true, none⟩ then .ok true
        else .error ⟨true, none⟩)
  ∧ (updateActivitiesCollectionMetadata_run (.error ⟨true, none⟩)
        (.ok ⟨false, []⟩)
      = if retryableError ⟨true, none⟩ then .ok true
        else .error ⟨true, none⟩)
  ∧ (updateActivitiesCollectionMetadata_run (.ok [⟨"a", "idx"⟩])
        (.error ⟨true, none⟩)
      = if retryableError ⟨true, none⟩ then .ok true
        else .error ⟨true, none⟩)
  ∧ retryableError ⟨true, none⟩
      = ((⟨true, none⟩ : EsError).aborted
          || (⟨true, none⟩ : EsError).causedByType
              == some "node_not_connected_exception") :=
  propagation_transient_error_keepGoing ⟨true, none⟩ [⟨"a", "idx"⟩]
    (.ok ⟨false, []⟩) (by decide)

/-- Claim C8: with `overrideIndexedAt = true` every document reaching the
bulk body has `indexedAt` set to the current time; with the flag disabled
the batch is unchanged. -/
theorem save_stamps_indexedAt (now : Nat) (indexName : String) (upsert : Bool)
    (activities : List ActivityDocument) :
    (∀ activity, BulkLine.doc activity
        ∈ saveBulkBody indexName upsert (stampIndexedAt now true activities)
        → activity.indexedAt = some now)
  ∧ stampIndexedAt now false activities = activities := by
  constructor
  · intro activity hmem
    simp [saveBulkBody, stampIndexedAt] at hmem
    obtain ⟨a, hmema, ha⟩ := hmem
    rw [← ha]
  · simp [stampIndexedAt]

/-- Claim C8 witness: the stamping behaviour evaluated on a one-document
batch. -/
theorem save_stamps_indexedAt_witness :
    (⟨"a1", some 7⟩ : ActivityDocument).indexedAt = some 7
  ∧ stampIndexedAt 7 false [⟨"a1", none⟩] = [⟨"a1", none⟩] :=
  ⟨(save_stamps_indexedAt 7 "mainnet.activities" true [⟨"a1", none⟩]).1
      ⟨"a1", some 7⟩ (by decide),
   (save_stamps_indexedAt 7 "mainnet.activities" true [⟨"a1", none⟩]).2⟩

/-- Claim C9 counterexample: in create mode (`upsert = false`) a bulk
response with per-document errors makes `save` return normally but logs no
diagnostics at all — the partial failure is silently swallowed rather than
reported. -/
theorem save_create_mode_errors_unlogged :
    saveRun false (.ok ⟨true, [⟨some ⟨some 409⟩⟩]⟩) = (.ok (), [])
  ∧ (⟨true, [⟨some ⟨some 409⟩⟩]⟩ : BulkResponse).errors = true := by
  constructor
  · rfl
  · rfl

/-- Claim C9 (amended): when the bulk call succeeds but the response reports
per-document errors, `save` returns normally regardless of the upsert mode;
the failure is reported via logged diagnostics only in upsert mode, and in
create mode nothing is logged. -/
theorem save_partial_failure_no_raise (upsert : Bool) (response : BulkResponse)
    (herr : response.errors = true) :
    (saveRun upsert (.ok response)).1 = .ok ()
  ∧ (saveRun upsert (.ok response)).2
      = (if upsert then ["save activities errors"] else []) := by
  cases upsert <;> simp [saveRun, herr]

/-- Claim C9 witness: the upsert-mode instance, where the failure is
logged. -/
theorem save_partial_failure_no_raise_witness :
    (saveRun true (.ok ⟨true, [⟨some ⟨some 409⟩⟩]⟩)).1 = .ok ()
  ∧ (saveRun true (.ok ⟨true, [⟨some ⟨some 409⟩⟩]⟩)).2
      = (if true then ["save activities errors"] else []) :=
  save_partial_failure_no_raise true ⟨true, [⟨some ⟨some 409⟩⟩]⟩ rfl

/-- Claim C10: a `startTimestamp` or `endTimestamp` equal to 0 is treated
exactly like an absent filter — the corresponding range clause is omitted
from the query entirely. -/
theorem search_zero_timestamp_omitted
    (startTimestamp endTimestamp : Option Nat) :
    searchTimestampFilter (some 0) endTimestamp
      = searchTimestampFilter none endTimestamp
  ∧ searchTimestampFilter startTimestamp (some 0)
      = searchTimestampFilter startTimestamp none
  ∧ searchTimestampFilter (some 0) (some 0) = [] := by
  refine ⟨rfl, ?_, rfl⟩
  simp [searchTimestampFilter, jsTruthyNat]
